import Mathlib

/-!
Verification development for the music-visualizer repository.

The definitions below are shallow embeddings of the TypeScript functions in
`src/unnamed/part_000` (single spectrum-visualizer page),
`src/src/routes/multi-view-composer/+page.svelte` (multi-view composer) and
`src/src/routes/audio/spectrogram/+page.svelte` (spectrogram page).
Machine numbers that are integral in the source are modelled as `Nat`/`Int`;
fractional quantities are modelled as `ℚ`.
-/

/-! ## Frequency-to-bin mapping

`startPreview` / `processAudio` in `part_000` both compute
`Math.floor(freq * analyser.frequencyBinCount / nyquist)` with
`nyquist = audioContext.sampleRate / 2` and
`frequencyBinCount = fftSize / 2`.
The composer's `renderSpectrumWithAudioData` (preview path) and
`renderSpectrumForRecording` (capture path) compute
`Math.floor(freq * dataArray.length / 22050)` with the nyquist hardcoded. -/

/-- Bin index as computed in `part_000`'s `startPreview` (lines 102-104). -/
def binIndexPreview (freq fftSize sampleRate : ℕ) : ℤ :=
  ⌊((freq : ℚ) * ((fftSize / 2 : ℕ) : ℚ)) / ((sampleRate : ℚ) / 2)⌋

/-- Bin index as computed in `part_000`'s `processAudio` (lines 161-163):
textually the same expression as in `startPreview`. -/
def binIndexCapture (freq fftSize sampleRate : ℕ) : ℤ :=
  ⌊((freq : ℚ) * ((fftSize / 2 : ℕ) : ℚ)) / ((sampleRate : ℚ) / 2)⌋

/-- Bin index in the composer's preview renderer
(`renderSpectrumWithAudioData`, lines 692-694): nyquist hardcoded to 22050,
`dataArray.length` is the analyser's `frequencyBinCount`. -/
def binIndexComposerPreview (freq binCount : ℕ) : ℤ :=
  ⌊((freq : ℚ) * (binCount : ℚ)) / 22050⌋

/-- Bin index in the composer's recording renderer
(`renderSpectrumForRecording`, lines 1070-1072): same expression. -/
def binIndexComposerRecording (freq binCount : ℕ) : ℤ :=
  ⌊((freq : ℚ) * (binCount : ℚ)) / 22050⌋

/-! ## Spectrum bar grouping (`drawSpectrum` in `part_000`,
`renderSpectrumWithAudioData` / `renderSpectrumForRecording` in the composer)

All spectrum styles (`normal`, `center`, `circular`, `liner`) share the same
index arithmetic:
  `frequencyRange = maxIndex - minIndex`
  `samplesPerBar  = Math.floor(frequencyRange / barCount)`
  per bar `i < barCount`:
    `startIndex = minIndex + i * samplesPerBar`
    `endIndex   = Math.min(startIndex + samplesPerBar, maxIndex)`
    the inner loop reads `dataArray[j]` for `startIndex ≤ j < endIndex`
    `average = sum / samplesPerBar`  (no guard against samplesPerBar = 0). -/

/-- `samplesPerBar` as in the source (floor division). -/
def samplesPerBar (minIndex maxIndex barCount : ℕ) : ℕ :=
  (maxIndex - minIndex) / barCount

/-- Start index of bar `i`. -/
def groupStart (minIndex spb i : ℕ) : ℕ :=
  minIndex + i * spb

/-- End index (exclusive) of bar `i`. -/
def groupEnd (minIndex maxIndex spb i : ℕ) : ℕ :=
  min (groupStart minIndex spb i + spb) maxIndex

/-- The list of indices `j` at which bar `i`'s inner loop reads
`dataArray[j]`. -/
def groupReads (minIndex maxIndex spb i : ℕ) : List ℕ :=
  List.range' (groupStart minIndex spb i)
    (groupEnd minIndex maxIndex spb i - groupStart minIndex spb i)

/-- The bar average as the source computes it: the sum of the read values
divided by `samplesPerBar`.  In the source this is IEEE division (0/0 = NaN
when `samplesPerBar = 0`); here rational division (0/0 = 0), so the
division-by-zero event is tracked separately by `spectrumDividesByZero`. -/
def barAverage (data : List ℚ) (minIndex maxIndex spb i : ℕ) : ℚ :=
  ((groupReads minIndex maxIndex spb i).map (fun j => data.getD j 0)).sum / spb

/-- True exactly when some executed bar computation divides by zero:
the loop body runs for `i < barCount`, and each iteration divides by
`samplesPerBar`. -/
def spectrumDividesByZero (minIndex maxIndex barCount : ℕ) : Bool :=
  0 < barCount && samplesPerBar minIndex maxIndex barCount == 0

example : samplesPerBar 0 32 64 = 0 := by decide
example : spectrumDividesByZero 0 32 64 = true := by decide
/-! ## Layer list and composite render order (multi-view composer)

`addLayerToTop` (lines 404-424) prepends: `layers = [newLayer, ...layers]`.
`startVisualization`'s `draw` (lines 584-627) and the capture loop
`renderFrame` (lines 1495-1538) both iterate `layers.forEach(...)` in list
order, skipping invisible layers, so the layer visited first is painted
first (and is covered by every later layer). -/

structure Layer where
  id : String
  visible : Bool
deriving DecidableEq, Repr

/-- `addLayerToTop`: the new layer is prepended to the authoritative list. -/
def addLayerToTop (l : Layer) (layers : List Layer) : List Layer :=
  l :: layers

/-- The sequence of layer ids in the order the composite renderer paints
them (both `startVisualization` and `renderFrame` use `layers.forEach`,
returning early on `!layer.visible`). -/
def drawSequence (layers : List Layer) : List String :=
  (layers.filter (fun l => l.visible)).map (fun l => l.id)

/-- Under the painter's algorithm, the layer painted last appears topmost. -/
def topmostRendered (layers : List Layer) : Option String :=
  (drawSequence layers).getLast?

/-- The rendered visual stack listed top-to-bottom: the reverse of the
paint order. -/
def stackTopToBottom (layers : List Layer) : List String :=
  (drawSequence layers).reverse

/-! ## Mime-type negotiation (`processAudio` in `part_000` lines 187-194,
`exportComposition` in the composer lines 1468-1475; identical code). -/

/-- The negotiation exactly as written: start from `vp8,opus`, replace by
generic webm if the current choice is unsupported, then replace by generic
mp4 if the (possibly updated) choice is unsupported. -/
def negotiateMime (sup : String → Bool) : String :=
  let mime1 := "video/webm;codecs=vp8,opus"
  let mime2 := if !(sup mime1) then "video/webm" else mime1
  if !(sup mime2) then "video/mp4" else mime2

/-- The fixed priority list from the spec. -/
def mimePriorityList : List String :=
  ["video/webm;codecs=vp8,opus", "video/webm", "video/mp4"]

/-- A host that supports nothing but generic webm. -/
def webmOnlyHost : String → Bool :=
  fun s => s == "video/webm"

/-! ## Spectrogram rolling history buffer
(`src/src/routes/audio/spectrogram/+page.svelte`)

`maxDataPoints = 1000` (line 24).  The preview `collectData` (lines
152-167) pushes the new frame and then shifts the oldest off when the
length exceeds `maxDataPoints`.  The processing-path `collectData`
(lines 240-256) pushes the new frame with no eviction at all. -/

def maxDataPoints : ℕ := 1000

/-- One preview-path data-collection tick acting on the
`spectrogramData` buffer: push, then shift if over `maxDataPoints`. -/
def previewCollectTick (buf : List (List ℕ)) (frame : List ℕ) :
    List (List ℕ) :=
  let buf2 := buf ++ [frame]
  if buf2.length > maxDataPoints then buf2.tail else buf2

/-- One processing-path (capture) data-collection tick: push only. -/
def processCollectTick (buf : List (List ℕ)) (frame : List ℕ) :
    List (List ℕ) :=
  buf ++ [frame]

/-! ## Save-and-convert flow
(`createVideo` in `part_000` lines 237-291, `createVideoFile` in the
composer lines 1560-1616)

Both write the recorded blob to the user-chosen path, then invoke the
external `convert_video` only when auto-convert applies; a conversion
failure is caught, alerted, and nothing touches the already-written file.
The file system is modelled as a map from paths to byte lists; the
external transcoder as an `Except` carrying either the converted output
(path and bytes it writes) or an error text. -/

def writeFS (fs : String → Option (List ℕ)) (p : String) (bytes : List ℕ) :
    String → Option (List ℕ) :=
  fun q => if q = p then some bytes else fs q

structure SaveOutcome where
  fs : String → Option (List ℕ)
  convertCalled : Bool
  conversionErrorSurfaced : Bool

/-- `createVideo` (`part_000`): `savePath = none` models a cancelled save
dialog; the blob written is the concatenation of the recorded chunks;
conversion runs iff `convertAfterRecording && ffmpegInstalled &&
exportFormat !== 'webm'`. -/
def createVideo (fs0 : String → Option (List ℕ)) (chunks : List (List ℕ))
    (savePath : Option String)
    (convertAfterRecording ffmpegInstalled : Bool) (exportFormat : String)
    (convertResult : Except String (String × List ℕ)) : SaveOutcome :=
  match savePath with
  | none => ⟨fs0, false, false⟩
  | some p =>
    let fs1 := writeFS fs0 p chunks.flatten
    if convertAfterRecording && ffmpegInstalled
        && !(exportFormat == "webm") then
      match convertResult with
      | .ok (outPath, outBytes) => ⟨writeFS fs1 outPath outBytes, true, false⟩
      | .error _ => ⟨fs1, true, true⟩
    else ⟨fs1, false, false⟩

/-- `createVideoFile` (composer): identical flow except the condition has
no `ffmpegInstalled` conjunct (lines 1588-1601). -/
def createVideoFile (fs0 : String → Option (List ℕ))
    (chunks : List (List ℕ)) (savePath : Option String)
    (convertAfterRecording : Bool) (exportFormat : String)
    (convertResult : Except String (String × List ℕ)) : SaveOutcome :=
  match savePath with
  | none => ⟨fs0, false, false⟩
  | some p =>
    let fs1 := writeFS fs0 p chunks.flatten
    if convertAfterRecording && !(exportFormat == "webm") then
      match convertResult with
      | .ok (outPath, outBytes) => ⟨writeFS fs1 outPath outBytes, true, false⟩
      | .error _ => ⟨fs1, true, true⟩
    else ⟨fs1, false, false⟩

/-! ## Capture progress
(`renderFrame` in the composer lines 1527-1532, the capture `draw` loop in
`part_000` lines 216-221, `onended` handlers at lines 1543-1544 and
227-228) -/

/-- Progress value assigned on a render tick:
`Math.min(100, (elapsed / audioDuration) * 100)`. -/
def tickProgress (audioDuration elapsed : ℚ) : ℚ :=
  min 100 (elapsed / audioDuration * 100)

/-- Progress assigned by the `onended` handler when the audio source ends. -/
def endedProgress : ℚ := 100

/-! ## Preview/capture mutual exclusion (multi-view composer)

`stopPreview` (lines 632-648) synchronously clears the flag, cancels the
animation handle, stops and disconnects the source, closes the context and
nulls the analyser.  `exportComposition` (lines 1409-1492) returns early
without side effects when no file is selected or no layer exists;
otherwise it stops the preview if one is playing and then connects the
capture audio graph. -/

structure ComposerAudioState where
  isPreviewPlaying : Bool
  previewAnimationId : Option ℕ
  previewSourceConnected : Bool
  captureConnected : Bool
deriving DecidableEq, Repr

/-- `stopPreview` as in the composer. -/
def stopPreview (s : ComposerAudioState) : ComposerAudioState :=
  { s with isPreviewPlaying := false,
           previewAnimationId := none,
           previewSourceConnected := false }

/-- The audio-graph effect of `exportComposition` up to the point where the
capture graph is connected (lines 1410-1461). -/
def exportComposition (hasFile layersNonempty : Bool)
    (s : ComposerAudioState) : ComposerAudioState :=
  if !hasFile then s
  else if !layersNonempty then s
  else
    let s1 := if s.isPreviewPlaying then stopPreview s else s
    { s1 with captureConnected := true }

/-- Number of active audio-graph connections to the decoded audio. -/
def activeConnections (s : ComposerAudioState) : ℕ :=
  (if s.previewSourceConnected then 1 else 0)
    + (if s.captureConnected then 1 else 0)

/-! ## Frequency-range setters (`updateMinFreq` / `updateMaxFreq` in
`part_000` lines 73-89; values are `parseInt` results, modelled as `ℤ`). -/

/-- New `minFreq` after `updateMinFreq` with slider value `value`. -/
def updateMinFreq (maxFreq value : ℤ) : ℤ :=
  if value ≥ maxFreq then maxFreq - 10 else value

/-- New `maxFreq` after `updateMaxFreq` with slider value `value`. -/
def updateMaxFreq (minFreq value : ℤ) : ℤ :=
  if value ≤ minFreq then minFreq + 10 else value

/-- Spec-side frequency-to-bin formula, written from the spec's words:
`bin = floor(freqHz * binCount / nyquist)`, `nyquist = sampleRate/2`. -/
def specBinIndex (freqHz binCount sampleRate : ℕ) : ℤ :=
  ⌊((freqHz : ℚ) * (binCount : ℚ)) / ((sampleRate : ℚ) / 2)⌋

/-- Helper: the indices a spectrum bar reads lie between its group start
and the clamped group end. -/
theorem groupReads_bounds (minIndex maxIndex spb i j : ℕ)
    (hj : j ∈ groupReads minIndex maxIndex spb i) :
    minIndex ≤ j ∧ j < maxIndex := by
  unfold groupReads groupEnd groupStart at hj
  rw [List.mem_range'_1] at hj
  omega

/-- C1 counterexample: with `minIndex = 0`, `maxIndex = 32`,
`barCount = 64` (so `maxIndex > minIndex ≥ 0` and
`barCount > maxIndex - minIndex`), the spectrum renderers compute
`samplesPerBar = 0` and every bar executes `average = sum / samplesPerBar`,
a division by zero; no clamping to a valid index happens. -/
theorem spectrum_divzero_counterexample :
    (0 : ℕ) < 32 ∧ 32 - 0 < 64 ∧
      samplesPerBar 0 32 64 = 0 ∧
      spectrumDividesByZero 0 32 64 = true := by
  decide

/-- C1 (amended): for `maxIndex > minIndex ≥ 0` and `barCount > 0`, every
spectrum style reads frequency-bin values only at indices inside
`[minIndex, maxIndex)` (all styles share the same group arithmetic), but
the per-group average divides by zero exactly when
`barCount > maxIndex - minIndex`; the code performs no clamping in that
case. -/
theorem spectrum_reads_in_range_divzero_iff
    (minIndex maxIndex barCount : ℕ)
    (hrange : minIndex < maxIndex) (hbar : 0 < barCount) :
    (∀ i < barCount,
        ∀ j ∈ groupReads minIndex maxIndex
            (samplesPerBar minIndex maxIndex barCount) i,
          minIndex ≤ j ∧ j < maxIndex) ∧
    (spectrumDividesByZero minIndex maxIndex barCount = true ↔
        maxIndex - minIndex < barCount) := by
  constructor
  · intro i _ j hj
    exact groupReads_bounds _ _ _ _ _ hj
  · unfold spectrumDividesByZero samplesPerBar
    simp [hbar, Nat.div_eq_zero_iff hbar]

/-- Witness for the amended C1 at `minIndex = 0`, `maxIndex = 32`,
`barCount = 64`. -/
theorem spectrum_reads_in_range_divzero_iff_witness :
    spectrumDividesByZero 0 32 64 = true ↔ 32 - 0 < 64 :=
  (spectrum_reads_in_range_divzero_iff 0 32 64 (by decide) (by decide)).2

def layerA : Layer := ⟨"A", true⟩

def layerB : Layer := ⟨"B", true⟩

def layerC : Layer := ⟨"C", true⟩

/-- C2 counterexample: prepending A to [B, C] yields the authoritative
list [A, B, C], but the renderer's `forEach` paints the *first* element
first, so the topmost (last-painted) layer is C, not A. -/
theorem render_order_counterexample :
    addLayerToTop layerA [layerB, layerC] = [layerA, layerB, layerC] ∧
    drawSequence [layerA, layerB, layerC] = ["A", "B", "C"] ∧
    topmostRendered [layerA, layerB, layerC] = some "C" ∧
    topmostRendered [layerA, layerB, layerC] ≠ some "A" := by
  refine ⟨rfl, rfl, rfl, ?_⟩
  decide

/-- C2 (amended): the composite renderer draws layers front-to-back with
respect to the authoritative list: the first element is drawn first and
thus appears bottommost; for three visible layers [A, B, C] with A added
last by prepending, the rendered top-to-bottom stack is C over B over A. -/
theorem render_order_amended (ls : List Layer)
    (h : ∀ l ∈ ls, l.visible = true) :
    drawSequence ls = ls.map (fun l => l.id) ∧
    stackTopToBottom ls = (ls.map (fun l => l.id)).reverse := by
  have hf : ls.filter (fun l => l.visible) = ls :=
    List.filter_eq_self.mpr (by simpa using h)
  constructor
  · simp [drawSequence, hf]
  · simp [stackTopToBottom, drawSequence, hf]

/-- Witness for the amended C2 at the three-layer scenario [A, B, C]. -/
theorem render_order_amended_witness :
    stackTopToBottom [layerA, layerB, layerC] =
      ([layerA, layerB, layerC].map (fun l => l.id)).reverse :=
  (render_order_amended [layerA, layerB, layerC] (by decide)).2

/-- C3: mime-type negotiation follows the fixed priority list
vp8+opus, generic webm, generic mp4: whenever the host supports at least
one entry, the negotiated type is the first supported entry of that list. -/
theorem mime_negotiation_first_supported (sup : String → Bool)
    (h : sup "video/webm;codecs=vp8,opus" = true ∨
         sup "video/webm" = true ∨ sup "video/mp4" = true) :
    mimePriorityList.find? sup = some (negotiateMime sup) := by
  cases h1 : sup "video/webm;codecs=vp8,opus" <;>
    cases h2 : sup "video/webm" <;>
      cases h3 : sup "video/mp4" <;>
        simp_all [negotiateMime, mimePriorityList]

/-- Witness for C3: on a host that supports nothing but generic webm the
negotiated type is exactly `video/webm`. -/
theorem mime_negotiation_first_supported_witness :
    mimePriorityList.find? webmOnlyHost = some (negotiateMime webmOnlyHost)
      ∧ negotiateMime webmOnlyHost = "video/webm" :=
  ⟨mime_negotiation_first_supported webmOnlyHost (Or.inr (Or.inl (by decide))),
   by decide⟩

/-- Helper: a processing-path tick always grows the buffer by one. -/
theorem processCollectTick_length (buf : List (List ℕ)) (frame : List ℕ) :
    (processCollectTick buf frame).length = buf.length + 1 := by
  simp [processCollectTick]

/-- C4 counterexample: the capture/processing-path `collectData` appends
with no eviction, so a tick on a buffer already holding `maxDataPoints`
frames leaves `maxDataPoints + 1` frames — the claimed invariant
`length ≤ maxDataPoints` is not preserved by the processing tick. -/
theorem spectrogram_buffer_counterexample :
    (List.replicate maxDataPoints ([] : List ℕ)).length = maxDataPoints ∧
    (processCollectTick (List.replicate maxDataPoints []) []).length
      = maxDataPoints + 1 := by
  constructor
  · simp
  · simp [processCollectTick]

/-- C4 (amended): only the preview-path tick maintains the rolling
buffer: it preserves `length ≤ maxDataPoints`, evicting the oldest frame
(FIFO) when the buffer is full; the processing-path tick appends without
evicting. -/
theorem spectrogram_preview_buffer_invariant (buf : List (List ℕ))
    (frame : List ℕ) (h : buf.length ≤ maxDataPoints) :
    (previewCollectTick buf frame).length ≤ maxDataPoints ∧
    (buf.length = maxDataPoints →
      previewCollectTick buf frame = buf.tail ++ [frame]) ∧
    (processCollectTick buf frame).length = buf.length + 1 := by
  have hdef : previewCollectTick buf frame =
      if (buf ++ [frame]).length > maxDataPoints then (buf ++ [frame]).tail
      else buf ++ [frame] := rfl
  refine ⟨?_, ?_, processCollectTick_length buf frame⟩
  · rw [hdef]
    split
    · simp only [List.length_tail, List.length_append, List.length_cons,
        List.length_nil]
      omega
    · rename_i hle
      simp only [Nat.not_lt, List.length_append, List.length_cons,
        List.length_nil] at hle ⊢
      omega
  · intro hfull
    rw [hdef, if_pos (by simp [hfull])]
    cases buf with
    | nil => simp [maxDataPoints] at hfull
    | cons a as => simp

/-- Witness for the amended C4 on a full buffer of 1000 empty frames. -/
theorem spectrogram_preview_buffer_invariant_witness :
    (previewCollectTick (List.replicate maxDataPoints ([] : List ℕ))
        []).length ≤ maxDataPoints :=
  (spectrogram_preview_buffer_invariant
    (List.replicate maxDataPoints []) [] (by simp)).1

/-- C5: when the external conversion step fails (a `ConversionError`), the
captured WebM file written at the chosen save path is neither deleted nor
mutated — it still holds exactly the recorded bytes — and the error is
surfaced (whenever the conversion was attempted) without rolling back
prior output; this holds in both the single-page `createVideo` and the
composer's `createVideoFile`. -/
theorem conversion_failure_preserves_original
    (fs0 : String → Option (List ℕ)) (chunks : List (List ℕ)) (p : String)
    (convertAfterRecording ffmpegInstalled : Bool) (exportFormat : String)
    (err : String) :
    ((createVideo fs0 chunks (some p) convertAfterRecording ffmpegInstalled
        exportFormat (.error err)).fs p = some chunks.flatten) ∧
    ((createVideo fs0 chunks (some p) convertAfterRecording ffmpegInstalled
        exportFormat (.error err)).conversionErrorSurfaced =
      (createVideo fs0 chunks (some p) convertAfterRecording ffmpegInstalled
        exportFormat (.error err)).convertCalled) ∧
    ((createVideoFile fs0 chunks (some p) convertAfterRecording
        exportFormat (.error err)).fs p = some chunks.flatten) ∧
    ((createVideoFile fs0 chunks (some p) convertAfterRecording
        exportFormat (.error err)).conversionErrorSurfaced =
      (createVideoFile fs0 chunks (some p) convertAfterRecording
        exportFormat (.error err)).convertCalled) := by
  unfold createVideo createVideoFile
  refine ⟨?_, ?_, ?_, ?_⟩ <;>
    · dsimp only
      split <;> simp [writeFS]

/-- C6: on every capture render tick the reported progress is
`min 100 (elapsed / audioDuration * 100)`; for `audioDuration > 0` it is
monotonically non-decreasing in the (non-decreasing) elapsed audio clock,
never exceeds 100, equals exactly 100 once the elapsed time reaches the
audio duration, and the `onended` handler sets it to exactly 100 at
end-of-audio. -/
theorem capture_progress_monotone_bounded
    (audioDuration e1 e2 : ℚ) (hd : 0 < audioDuration) (h12 : e1 ≤ e2) :
    tickProgress audioDuration e1 ≤ tickProgress audioDuration e2 ∧
    tickProgress audioDuration e1 ≤ 100 ∧
    (audioDuration ≤ e2 → tickProgress audioDuration e2 = 100) ∧
    endedProgress = 100 := by
  refine ⟨?_, min_le_left _ _, ?_, rfl⟩
  · apply min_le_min le_rfl
    have := (div_le_div_iff_of_pos_right hd).mpr h12
    nlinarith
  · intro hend
    have h1 : (1 : ℚ) ≤ e2 / audioDuration := (one_le_div hd).mpr hend
    have h100 : (100 : ℚ) ≤ e2 / audioDuration * 100 := by nlinarith
    exact min_eq_left h100

/-- Witness for C6 at `audioDuration = 2`, ticks at elapsed 1 and 3. -/
theorem capture_progress_monotone_bounded_witness :
    tickProgress 2 1 ≤ tickProgress 2 3 :=
  (capture_progress_monotone_bounded 2 1 3 (by norm_num) (by norm_num)).1

/-- C7: the frequency-to-bin mapping is
`floor(freqHz * binCount / (sampleRate/2))` in every path; the preview and
capture computations coincide in `part_000` (and in the composer, where
the nyquist is the hardcoded 22050 = 44100/2); for `minFreq = 20`,
`maxFreq = 14400`, `fftSize = 2048` (1024 bins) at sample rate 44100 it
yields `minIndex = 0` and `maxIndex = 668`, within the spec's quoted
approximations `~1` and `~670`; identical inputs always give identical
indices. -/
theorem bin_mapping_consistent :
    (∀ f fft sr, binIndexPreview f fft sr = binIndexCapture f fft sr) ∧
    (∀ f fft sr, binIndexPreview f fft sr = specBinIndex f (fft / 2) sr) ∧
    (∀ f b, binIndexComposerPreview f b = binIndexComposerRecording f b) ∧
    (∀ f b, binIndexComposerPreview f b = specBinIndex f b 44100) ∧
    binIndexPreview 20 2048 44100 = 0 ∧
    binIndexPreview 14400 2048 44100 = 668 ∧
    (binIndexPreview 20 2048 44100 - 1).natAbs ≤ 1 ∧
    (binIndexPreview 14400 2048 44100 - 670).natAbs ≤ 2 := by
  have hmin : binIndexPreview 20 2048 44100 = 0 := by
    rw [binIndexPreview, Int.floor_eq_iff] <;> norm_num
  have hmax : binIndexPreview 14400 2048 44100 = 668 := by
    rw [binIndexPreview, Int.floor_eq_iff] <;> norm_num
  refine ⟨fun f fft sr => rfl, fun f fft sr => rfl, fun f b => rfl,
    ?_, hmin, hmax, ?_, ?_⟩
  · intro f b
    unfold binIndexComposerPreview specBinIndex
    norm_num
  · rw [hmin]
    decide
  · rw [hmax]
    decide

/-- C8: starting an export while a preview is active first tears the
preview down — the preview flag is cleared, its animation handle is
cancelled, and its audio source is disconnected — so that after capture
startup exactly one audio-graph connection to the decoded audio remains
active. -/
theorem export_teardown_single_connection (s : ComposerAudioState)
    (hsrc : s.isPreviewPlaying = false → s.previewSourceConnected = false)
    (hanim : s.isPreviewPlaying = false → s.previewAnimationId = none)
    (hcap : s.captureConnected = false) :
    activeConnections (exportComposition true true s) = 1 ∧
    (exportComposition true true s).isPreviewPlaying = false ∧
    (exportComposition true true s).previewSourceConnected = false ∧
    (exportComposition true true s).previewAnimationId = none := by
  cases hp : s.isPreviewPlaying
  · simp [exportComposition, activeConnections, hp, hsrc hp, hanim hp]
  · simp [exportComposition, stopPreview, activeConnections, hp]

/-- Witness for C8: a state with an actively connected preview. -/
theorem export_teardown_single_connection_witness :
    activeConnections (exportComposition true true
      ⟨true, some 5, true, false⟩) = 1 :=
  (export_teardown_single_connection ⟨true, some 5, true, false⟩
    (by decide) (by decide) (by decide)).1

/-- C9 counterexample: with `maxFreq = 100` and slider value 95,
`updateMinFreq` stores 95 — not `min 95 (maxFreq - 10) = 90` as the claim
states — so the setter is not equivalent to clamping by `min`. -/
theorem updateMinFreq_counterexample :
    updateMinFreq 100 95 = 95 ∧ min (95 : ℤ) (100 - 10) = 90 ∧
      updateMinFreq 100 95 ≠ min (95 : ℤ) (100 - 10) := by
  decide

/-- C9 (amended): `updateMinFreq` stores the value unchanged when it is
below `maxFreq` and stores `maxFreq - 10` otherwise (it does not clamp to
`min value (maxFreq - 10)`); `updateMaxFreq` is symmetric; for every prior
state with `minFreq < maxFreq`, the invariant `minFreq < maxFreq` holds
after every update. -/
theorem freq_setters_preserve_invariant (minFreq maxFreq value : ℤ)
    (horder : minFreq < maxFreq) :
    updateMinFreq maxFreq value < maxFreq ∧
    minFreq < updateMaxFreq minFreq value ∧
    updateMinFreq maxFreq value =
      (if value ≥ maxFreq then maxFreq - 10 else value) ∧
    updateMaxFreq minFreq value =
      (if value ≤ minFreq then minFreq + 10 else value) := by
  refine ⟨?_, ?_, rfl, rfl⟩
  · unfold updateMinFreq
    split <;> omega
  · unfold updateMaxFreq
    split <;> omega

/-- Witness for the amended C9 at `minFreq = 20`, `maxFreq = 100`,
value 95. -/
theorem freq_setters_preserve_invariant_witness :
    updateMinFreq 100 95 < 100 :=
  (freq_setters_preserve_invariant 20 100 95 (by decide)).1

/-- C10: after a successful save, the external `convert_video` is invoked
iff `convertAfterRecording` is enabled and the chosen `exportFormat` is
not `webm` (with the additional `ffmpegInstalled` conjunct on the
single-visualizer page); a cancelled save never converts, and choosing
WebM never triggers a conversion call. -/
theorem convert_invoked_iff (fs0 : String → Option (List ℕ))
    (chunks : List (List ℕ)) (p : String)
    (convertAfterRecording ffmpegInstalled : Bool) (exportFormat : String)
    (res : Except String (String × List ℕ)) :
    ((createVideo fs0 chunks (some p) convertAfterRecording ffmpegInstalled
          exportFormat res).convertCalled =
        (convertAfterRecording && ffmpegInstalled
          && !(exportFormat == "webm"))) ∧
    ((createVideo fs0 chunks none convertAfterRecording ffmpegInstalled
        exportFormat res).convertCalled = false) ∧
    ((createVideoFile fs0 chunks (some p) convertAfterRecording
          exportFormat res).convertCalled =
        (convertAfterRecording && !(exportFormat == "webm"))) ∧
    ((createVideoFile fs0 chunks none convertAfterRecording
        exportFormat res).convertCalled = false) ∧
    ((createVideo fs0 chunks (some p) convertAfterRecording ffmpegInstalled
        "webm" res).convertCalled = false) ∧
    ((createVideoFile fs0 chunks (some p) convertAfterRecording
        "webm" res).convertCalled = false) := by
  unfold createVideo createVideoFile
  refine ⟨?_, rfl, ?_, rfl, ?_, ?_⟩ <;>
    · dsimp only
      split
      · rename_i hcond
        cases res <;> simp_all
      · rename_i hcond
        simp_all
